import Mathlib

/-!
Verification of the stm32-flash-corruptor firmware against its
natural-language specification.

The development shallowly embeds the two subsystems the claims are about:

* the flash protocol driver (`src/flash.rs`): status decoding, the bounded
  busy-wait, the sticky-flag clearing, the page-erase sequence and the RAII
  relock destructor, modelled over explicit register records.  Hardware
  behaviour that is outside software control (when the busy flag clears, what
  the erase operation does to the status flags) is supplied as an explicit
  environment/oracle parameter.
* the boot logic of `src/main.rs`: the persisted backup-register record, the
  first-boot initialization, the per-boot binary-search narrowing step, the
  minimum-width assertion, the panic handler, and the fault-classifier macro
  `bad_thing_happened!`.

Machine integers (`u32`) are modelled as `Nat` with explicit `% 2^32`
wrap-around where the source performs 32-bit arithmetic (the firmware is an
embedded release build, where integer overflow wraps).
-/

namespace FlashCorruptor

/-! ## Flash driver data model (src/flash.rs) -/

/-- Error taxonomy of the flash driver (`flash.rs`, `enum Error`). -/
inductive Error where
  | UnlockFailed
  | Busy
  | Illegal
  | InvalidPage
deriving Repr, DecidableEq

/-- The flash status register FLASH_SR, restricted to the bits the driver
reads or writes: busy, the sticky programming-error flags, and the
end-of-operation flag. -/
structure SR where
  bsy : Bool
  pgaerr : Bool
  progerr : Bool
  wrperr : Bool
  sizerr : Bool
  pgserr : Bool
  miserr : Bool
  fasterr : Bool
  eop : Bool
deriving Repr, DecidableEq

/-- The flash control register FLASH_CR, restricted to the bits the driver
touches: the lock bit, page-erase enable, page number, bank select, start,
and programming enable. -/
structure CR where
  lock : Bool
  per : Bool
  pnb : Nat
  bker : Bool
  start : Bool
  pg : Bool
deriving Repr, DecidableEq

/-- The software-visible flash controller register state. -/
structure FlashRegs where
  sr : SR
  cr : CR
deriving Repr, DecidableEq

/-- Flash.status (`flash.rs` lines 73-84): `Busy` if the busy bit is set,
else `Illegal` if `pgaerr || progerr || wrperr`, else ready (`Ok`). -/
def status (sr : SR) : Except Error Unit :=
  if sr.bsy then .error .Busy
  else if sr.pgaerr || sr.progerr || sr.wrperr then .error .Illegal
  else .ok ()

/-- Polling budget of the busy-wait loop (`flash.rs` line 246). -/
def WAIT_BOUND : Nat := 100000

/-- The SR value observed after the busy-wait polling loop.  `busyFor` is the
environment's oracle: the number of polls after which the hardware clears the
busy flag.  If the hardware clears busy within the polling budget the loop
breaks with busy observed clear; otherwise the loop exhausts its budget and
busy is observed unchanged (if it was clear from the start, the loop breaks
immediately and nothing changed either way). -/
def observedSr (busyFor : Nat) (sr : SR) : SR :=
  if busyFor < WAIT_BOUND then { sr with bsy := false } else sr

/-- FlashUnlocked.wait (`flash.rs` lines 233-253): poll the busy bit for at
most `WAIT_BOUND` iterations, then return `status` of the observed register
value.  Returns the observed SR alongside the result. -/
def wait (busyFor : Nat) (sr : SR) : Except Error Unit × SR :=
  let sr1 := observedSr busyFor sr
  (status sr1, sr1)

/-- FlashUnlocked.clear_programming_flags (`flash.rs` lines 119-136): clears
the seven sticky programming-error flags of FLASH_SR. -/
def clear_programming_flags (sr : SR) : SR :=
  { sr with progerr := false, sizerr := false, pgaerr := false,
            pgserr := false, wrperr := false, miserr := false,
            fasterr := false }

/-- The Drop impl for FlashUnlocked (`flash.rs` lines 30-43).  The source
executes `self.flash.flash.cr.modify(|_, w| w.lock().clear_bit())`, i.e. it
writes 0 to the LOCK bit of FLASH_CR. -/
def dropFlashUnlocked (s : FlashRegs) : FlashRegs :=
  { s with cr := { s.cr with lock := false } }

/-- Environment (hardware oracle) for one `erase_page` call: how many polls
the two busy-waits take before the hardware clears the busy flag, and the
hardware's effect on FLASH_SR while the erase operation itself runs. -/
structure EraseEnv where
  busyFor1 : Nat
  busyFor2 : Nat
  eraseSr : SR → SR

/-- FlashUnlocked.erase_page (`flash.rs` lines 139-181): wait for ready,
clear the sticky programming-error flags, reject page numbers >= 256
(single-bank page count) with `InvalidPage`, otherwise set PER with the page
number (cast to u8) and BKER cleared, set START, wait for completion
(the hardware's evolution of SR during the erase is the oracle
`env.eraseSr`; hardware also clears START when busy clears, which is not
claim-relevant and not tracked), always clear PER again, and propagate the
second wait's result. -/
def erase_page (env : EraseEnv) (s : FlashRegs) (page_number : Nat) :
    Except Error Unit × FlashRegs :=
  match wait env.busyFor1 s.sr with
  | (.error e, sr1) => (.error e, { s with sr := sr1 })
  | (.ok _, sr1) =>
    let sr2 := clear_programming_flags sr1
    if 256 ≤ page_number then
      (.error .InvalidPage, { s with sr := sr2 })
    else
      let cr3 := { s.cr with per := true, pnb := page_number % 256, bker := false }
      let cr4 := { cr3 with start := true }
      match wait env.busyFor2 (env.eraseSr sr2) with
      | (r5, sr5) =>
        let cr6 := { cr4 with per := false }
        (r5, { sr := sr5, cr := cr6 })

/-- An FLASH_SR value with busy clear and every flag clear. -/
def sr0 : SR :=
  { bsy := false, pgaerr := false, progerr := false, wrperr := false,
    sizerr := false, pgserr := false, miserr := false, fasterr := false,
    eop := false }

/-- An FLASH_CR value with every modelled bit clear. -/
def cr0 : CR :=
  { lock := false, per := false, pnb := 0, bker := false, start := false,
    pg := false }

/-- An erase environment in which the hardware is never busy and the erase
operation leaves the status register unchanged. -/
def envIdle : EraseEnv := { busyFor1 := 0, busyFor2 := 0, eraseSr := id }

/-! ## Boot logic data model (src/main.rs) -/

/-- The modulus of 32-bit arithmetic, 2^32. -/
def U32 : Nat := 4294967296

/-- MAGIC_VALUE (`main.rs` line 123): sentinel distinguishing a first boot
from a resumed search. -/
def MAGIC_VALUE : Nat := 0x99999999

/-- STATE_BEFORE_WRITE (`main.rs` line 120). -/
def STATE_BEFORE_WRITE : Nat := 1

/-- STATE_AFTER_WRITE (`main.rs` line 121). -/
def STATE_AFTER_WRITE : Nat := 2

/-- APPROXIMATE_ADDRESS_TO_CORRUPT (`main.rs` line 15). -/
def APPROXIMATE_ADDRESS_TO_CORRUPT : Nat := 0x10000

/-- CORRUPT_RANGE (`main.rs` line 16). -/
def CORRUPT_RANGE : Nat := 0x20

/-- Flash page size (`flash.rs` lines 66-68). -/
def page_size : Nat := 0x800

/-- Flash.address_to_page_number (`flash.rs` lines 112-114). -/
def address_to_page_number (address : Nat) : Nat :=
  address / page_size

/-- The persisted backup-register record (`main.rs` lines 125-130):
slot 0 is the magic value, slot 1 the bottom of the search range, slot 2 the
top, slot 3 the phase/state marker and slot 4 the reset counter.  Each slot
is a 32-bit register. -/
structure Backup where
  magic : Nat
  bottom : Nat
  top : Nat
  state : Nat
  resetCount : Nat
deriving Repr, DecidableEq

/-- A backup record is well formed when every slot holds a 32-bit value. -/
def Backup.wf (b : Backup) : Prop :=
  b.magic < U32 ∧ b.bottom < U32 ∧ b.top < U32 ∧ b.state < U32 ∧
  b.resetCount < U32

/-- Wrapping 32-bit subtraction, the semantics of `top - bottom` on `u32`
in the release build. -/
def u32sub (a b : Nat) : Nat :=
  (a + U32 - b % U32) % U32

/-- First-boot detection and initialization (`main.rs` lines 155-164): if
the stored magic differs from MAGIC_VALUE, write the sentinel and the
default interval bottom=1, top=1000 and reset the phase slot to 0
(NotStarted); otherwise leave the record alone. -/
def firstBootInit (b : Backup) : Backup :=
  if b.magic ≠ MAGIC_VALUE then
    { b with magic := MAGIC_VALUE, bottom := 1, top := 1000, state := 0 }
  else b

/-- Reset-counter increment (`main.rs` lines 167-170), diagnostic only. -/
def bumpResetCount (b : Backup) : Backup :=
  { b with resetCount := (b.resetCount + 1) % U32 }

/-- The per-boot narrowing step of the timing search engine (`main.rs` lines
172-197): compute `middle = (bottom + top) / 2` from the pre-update bounds
(32-bit wrapping addition); panic — modelled as `none` — when
`top - bottom < 5` (the "too similar" assertion, `assert!(!very_similar)`);
otherwise narrow `top := middle` when the persisted state is
STATE_BEFORE_WRITE, `bottom := middle` when it is STATE_AFTER_WRITE, leave
the bounds untouched otherwise; recompute `middle` from the updated bounds
as the delay to inject, and persist the updated bounds together with
`state := STATE_BEFORE_WRITE` (the write to backup slot 3 at line 197). -/
def searchStep (b : Backup) : Option (Backup × Nat) :=
  let middle := ((b.bottom + b.top) % U32) / 2
  let very_similar := u32sub b.top b.bottom < 5
  if very_similar then
    none
  else
    let bt : Nat × Nat :=
      if b.state = STATE_BEFORE_WRITE then (b.bottom, middle)
      else if b.state = STATE_AFTER_WRITE then (middle, b.top)
      else (b.bottom, b.top)
    some ({ b with bottom := bt.1, top := bt.2, state := STATE_BEFORE_WRITE },
          ((bt.1 + bt.2) % U32) / 2)

/-- A flash-mutating driver operation issued by `main`. -/
inductive FlashOp where
  | unlock
  | erasePage (page : Nat)
  | writeDwords (addr : Nat) (count : Nat)
deriving Repr, DecidableEq

/-- The outcome of the deterministic prefix of one boot of `main`: the
persisted backup record as of entering the timed write window, whether the
boot panicked at the minimum-width assertion, the injected delay (0 on the
panic path, where no delay is computed), and the flash-mutating operations
issued, in program order. -/
structure BootOutcome where
  backup : Backup
  panicked : Bool
  middle : Nat
  flashOps : List FlashOp
deriving Repr, DecidableEq

/-- One boot of `main` (`main.rs` lines 133-242), up to and including the
double-word write attempt: first-boot initialization, reset-counter bump,
the narrowing step (which panics on a collapsed interval, before any flash
interaction), then — only on the non-panic path — the flash operations:
unlock, erase of the page containing the target address, and the
double-word write of `CORRUPT_RANGE / 8 + 1` zero dwords at the target
address.  Whether the watchdog reset preempts the subsequent
STATE_AFTER_WRITE marker (line 245) is asynchronous hardware behaviour; the
marker is modelled separately by `afterWriteMark`. -/
def boot (b : Backup) : BootOutcome :=
  let b1 := bumpResetCount (firstBootInit b)
  match searchStep b1 with
  | none =>
      { backup := b1, panicked := true, middle := 0, flashOps := [] }
  | some (b2, middle) =>
      let page_number := address_to_page_number APPROXIMATE_ADDRESS_TO_CORRUPT
      { backup := b2, panicked := false, middle := middle,
        flashOps := [FlashOp.unlock, FlashOp.erasePage page_number,
                     FlashOp.writeDwords APPROXIMATE_ADDRESS_TO_CORRUPT
                       (CORRUPT_RANGE / 8 + 1)] }

/-- The STATE_AFTER_WRITE marker written when the write call returns without
the watchdog having fired (`main.rs` line 245). -/
def afterWriteMark (b : Backup) : Backup :=
  { b with state := STATE_AFTER_WRITE }

/-- The persisted effect of the panic handler (`main.rs` lines 43-58): it
writes 0 into backup slot 0, the magic, and then feeds the watchdog forever
(no further persisted mutation). -/
def panicHandler (b : Backup) : Backup :=
  { b with magic := 0 }

/-! ## Fault classifier data model (src/main.rs, bad_thing_happened!) -/

/-- The flash ECC-fault register FLASH_ECCR, restricted to the bits the
fault handler reads: the double-error-detected flag, the raw faulting
address bits, and the bank-select bit. -/
structure EccR where
  eccd : Bool
  addr_ecc : Nat
  bk_ecc : Bool
deriving Repr, DecidableEq

/-- The three indicator outputs. -/
structure Leds where
  green : Bool
  red : Bool
  blue : Bool
deriving Repr, DecidableEq

/-- The classification of a fault by the handler. -/
inductive Outcome where
  | success
  | offTarget
  | unrelated
deriving Repr, DecidableEq

/-- The faulting address reconstructed by the handler (`main.rs` line 77):
the raw address bits or-ed with the bank bit shifted to bit 20. -/
def dead_addr (e : EccR) : Nat :=
  e.addr_ecc ||| ((if e.bk_ecc then 1 else 0) <<< 20)

/-- The observable result of a fault-handler run: the persisted backup
record, the classification, and the indicator state (all three terminal
loops are left implicit — the handler never returns). -/
structure FaultResult where
  backup : Backup
  outcome : Outcome
  leds : Leds
deriving Repr, DecidableEq

/-- The fault handler `bad_thing_happened!` (`main.rs` lines 60-100), shared
by HardFault, NonMaskableInt and the default handler.  It first writes 0
into backup slot 0 — `peripherals.RTC.bkpr[0].write(|w| w.bits(0))` at line
65, executed unconditionally before the ECC register is even read — then
reads FLASH_ECCR once and classifies: double-error inside
[APPROXIMATE_ADDRESS_TO_CORRUPT, APPROXIMATE_ADDRESS_TO_CORRUPT +
CORRUPT_RANGE) is Success (green indicator, terminal feed loop);
double-error outside is off-target (red indicator); no double-error is an
unrelated fault (red and blue indicators). -/
def bad_thing_happened (e : EccR) (b : Backup) (l : Leds) : FaultResult :=
  let b1 := { b with magic := 0 }
  let is_flash_nmi := e.eccd
  let addr := dead_addr e
  if is_flash_nmi then
    if APPROXIMATE_ADDRESS_TO_CORRUPT ≤ addr ∧
        addr < APPROXIMATE_ADDRESS_TO_CORRUPT + CORRUPT_RANGE then
      { backup := b1, outcome := .success, leds := { l with green := true } }
    else
      { backup := b1, outcome := .offTarget, leds := { l with red := true } }
  else
    { backup := b1, outcome := .unrelated,
      leds := { l with red := true, blue := true } }

/-! ## Claim theorems -/

/-! ## Claim C1 -/

/-- C1 (code_bug evidence): the claim states that dropping the
`FlashUnlocked` guard sets the hardware lock bit again on every exit path.
The Drop impl instead executes `w.lock().clear_bit()`: for every register
state — hence after every sequence of driver operations — the lock bit is
clear after the drop, the flash is left unlocked, and only the lock bit was
written.  This contradicts the code's own doc comments ("The destructor for
this object locks the flash", "Lock the flash again when the FlashUnlocked
object is dropped"): relocking the STM32L4 flash requires setting LOCK. -/
theorem c1_drop_leaves_lock_clear (s : FlashRegs) :
    (dropFlashUnlocked s).cr.lock = false ∧
    (dropFlashUnlocked s).cr = { s.cr with lock := false } ∧
    (dropFlashUnlocked s).sr = s.sr := by
  exact ⟨rfl, rfl, rfl⟩

/-! ## Claim C4 -/

/-- C4 (counterexample): the claim says that with busy observed clear the
status routine returns `Illegal` exactly when one of the page-alignment,
size, write-protection or miscellaneous programming-error flags is set.  The
register value with only the size-error flag (SIZERR) set refutes this: busy
is clear, the size flag is set, yet `status` returns ready (`Ok`). -/
theorem c4_counterexample :
    ({ sr0 with sizerr := true } : SR).bsy = false ∧
    ({ sr0 with sizerr := true } : SR).sizerr = true ∧
    status { sr0 with sizerr := true } = .ok () := by
  exact ⟨rfl, rfl, rfl⟩

/-- C4 (amended): when the busy flag is clear, `status` returns `Illegal`
exactly when at least one of the page-alignment (PGAERR), miscellaneous
programming (PROGERR) or write-protection (WRPERR) flags is set, and ready
(`Ok`) exactly when none of those three is set; the size-error flag is not
consulted. -/
theorem c4_status_illegal_iff (sr : SR) (h : sr.bsy = false) :
    (status sr = .error .Illegal ↔
      (sr.pgaerr = true ∨ sr.progerr = true ∨ sr.wrperr = true)) ∧
    (status sr = .ok () ↔
      (sr.pgaerr = false ∧ sr.progerr = false ∧ sr.wrperr = false)) := by
  unfold status
  rw [h]
  cases ha : sr.pgaerr <;> cases hb : sr.progerr <;> cases hc : sr.wrperr <;>
    simp

/-- C4 witness: the amended theorem applied at the all-clear register value,
where status is ready, and at a value with the write-protection flag set,
where status is `Illegal`. -/
theorem c4_status_illegal_iff_witness :
    (status sr0 = .ok () ↔
      (sr0.pgaerr = false ∧ sr0.progerr = false ∧ sr0.wrperr = false)) ∧
    (status { sr0 with wrperr := true } = .error .Illegal ↔
      (({ sr0 with wrperr := true } : SR).pgaerr = true ∨
       ({ sr0 with wrperr := true } : SR).progerr = true ∨
       ({ sr0 with wrperr := true } : SR).wrperr = true)) := by
  exact ⟨(c4_status_illegal_iff sr0 rfl).2,
         (c4_status_illegal_iff { sr0 with wrperr := true } rfl).1⟩

/-! ## Claim C2 -/

/-- C2 (counterexample): the claim says that for every page number >= 256
`erase_page` returns `InvalidPage` without touching hardware — no busy-wait,
no clearing of sticky error flags.  Two concrete runs refute this:
(a) with the flash busy for the whole polling budget, `erase_page 256`
performs the busy-wait, times out and returns `Busy`, not `InvalidPage`;
(b) with the size-error flag set, `erase_page 256` does return `InvalidPage`
but has already cleared the sticky flag before the validation (the flag is
clear in the post-state). -/
theorem c2_counterexample :
    (erase_page { busyFor1 := WAIT_BOUND, busyFor2 := 0, eraseSr := id }
        { sr := { sr0 with bsy := true }, cr := cr0 } 256).1
      = .error .Busy ∧
    (erase_page envIdle { sr := { sr0 with sizerr := true }, cr := cr0 } 256).1
      = .error .InvalidPage ∧
    ({ sr0 with sizerr := true } : SR).sizerr = true ∧
    (erase_page envIdle { sr := { sr0 with sizerr := true }, cr := cr0 } 256).2.sr.sizerr
      = false := by
  exact ⟨rfl, rfl, rfl, rfl⟩

/-- C2 (amended): for every page number >= 256 `erase_page` never mutates
the control register, but it first performs the bounded busy-wait and clears
the sticky programming-error flags, and only then rejects the call: if the
preliminary wait succeeds the result is `InvalidPage` and the post-state's
status register is the observed one with the sticky flags cleared; if the
preliminary wait fails, its error (`Busy` or `Illegal`) is returned instead
of `InvalidPage`. -/
theorem c2_erase_page_invalid (env : EraseEnv) (s : FlashRegs)
    (page_number : Nat) (h : 256 ≤ page_number) :
    (erase_page env s page_number).2.cr = s.cr ∧
    (status (observedSr env.busyFor1 s.sr) = .ok () →
      (erase_page env s page_number).1 = .error .InvalidPage ∧
      (erase_page env s page_number).2.sr
        = clear_programming_flags (observedSr env.busyFor1 s.sr)) ∧
    (status (observedSr env.busyFor1 s.sr) ≠ .ok () →
      (erase_page env s page_number).1 = (wait env.busyFor1 s.sr).1) := by
  unfold erase_page wait
  cases hst : status (observedSr env.busyFor1 s.sr) with
  | error e => simp [hst]
  | ok u => simp [h, hst]

/-- C2 witness: the amended theorem applied at a concrete state with the
size-error flag set, page number 256 and an idle hardware environment. -/
theorem c2_erase_page_invalid_witness :
    256 ≤ 256 ∧
    ((erase_page envIdle { sr := { sr0 with sizerr := true }, cr := cr0 } 256).2.cr
       = ({ sr := { sr0 with sizerr := true }, cr := cr0 } : FlashRegs).cr ∧
     (status (observedSr envIdle.busyFor1 { sr0 with sizerr := true }) = .ok () →
       (erase_page envIdle { sr := { sr0 with sizerr := true }, cr := cr0 } 256).1
         = .error .InvalidPage ∧
       (erase_page envIdle { sr := { sr0 with sizerr := true }, cr := cr0 } 256).2.sr
         = clear_programming_flags
             (observedSr envIdle.busyFor1 { sr0 with sizerr := true })) ∧
     (status (observedSr envIdle.busyFor1 { sr0 with sizerr := true }) ≠ .ok () →
       (erase_page envIdle { sr := { sr0 with sizerr := true }, cr := cr0 } 256).1
         = (wait envIdle.busyFor1 { sr0 with sizerr := true }).1)) := by
  exact ⟨Nat.le_refl 256,
    c2_erase_page_invalid envIdle { sr := { sr0 with sizerr := true }, cr := cr0 }
      256 (Nat.le_refl 256)⟩

/-! ## Narrowing-step helper lemmas -/

/-- When the interval width is below 5 units the narrowing step hits the
"too similar" assertion and panics. -/
theorem searchStep_collapse (b : Backup) (h5 : u32sub b.top b.bottom < 5) :
    searchStep b = none := by
  unfold searchStep
  simp [h5]

/-- On a BeforeWrite boot the narrowing step lowers `top` to the pre-update
middle and injects the middle of the narrowed interval. -/
theorem searchStep_beforeWrite (b : Backup) (h5 : ¬ u32sub b.top b.bottom < 5)
    (h1 : b.state = STATE_BEFORE_WRITE) :
    searchStep b = some
      ({ b with top := ((b.bottom + b.top) % U32) / 2,
                state := STATE_BEFORE_WRITE },
       ((b.bottom + ((b.bottom + b.top) % U32) / 2) % U32) / 2) := by
  unfold searchStep
  simp [h5, h1]

/-- On an AfterWrite boot the narrowing step raises `bottom` to the
pre-update middle and injects the middle of the narrowed interval. -/
theorem searchStep_afterWrite (b : Backup) (h5 : ¬ u32sub b.top b.bottom < 5)
    (h2 : b.state = STATE_AFTER_WRITE) :
    searchStep b = some
      ({ b with bottom := ((b.bottom + b.top) % U32) / 2,
                state := STATE_BEFORE_WRITE },
       ((((b.bottom + b.top) % U32) / 2 + b.top) % U32) / 2) := by
  unfold searchStep
  have h1 : b.state ≠ STATE_BEFORE_WRITE := by
    rw [h2]; decide
  simp [h5, h1, h2, STATE_BEFORE_WRITE, STATE_AFTER_WRITE]

/-- On any other phase (NotStarted) the narrowing step leaves the bounds
untouched and injects the plain middle. -/
theorem searchStep_notStarted (b : Backup) (h5 : ¬ u32sub b.top b.bottom < 5)
    (h1 : b.state ≠ STATE_BEFORE_WRITE) (h2 : b.state ≠ STATE_AFTER_WRITE) :
    searchStep b = some ({ b with state := STATE_BEFORE_WRITE },
      ((b.bottom + b.top) % U32) / 2) := by
  unfold searchStep
  simp [h5, h1, h2]

/-- A boot whose stored magic differs from the sentinel reinitializes the
record to bottom=1, top=1000, phase NotStarted and then runs the search
engine without narrowing, injecting middle 500. -/
theorem firstBoot_run (b : Backup) (h : b.magic ≠ MAGIC_VALUE) :
    firstBootInit b
      = { b with magic := MAGIC_VALUE, bottom := 1, top := 1000, state := 0 } ∧
    (boot b).panicked = false ∧ (boot b).middle = 500 ∧
    (boot b).backup.bottom = 1 ∧ (boot b).backup.top = 1000 := by
  have hinit : firstBootInit b
      = { b with magic := MAGIC_VALUE, bottom := 1, top := 1000, state := 0 } := by
    unfold firstBootInit
    simp [h]
  have hb : bumpResetCount (firstBootInit b)
      = { b with magic := MAGIC_VALUE, bottom := 1, top := 1000, state := 0,
                 resetCount := (b.resetCount + 1) % U32 } := by
    rw [hinit]
    rfl
  have hstep : searchStep (bumpResetCount (firstBootInit b))
      = some ({ b with magic := MAGIC_VALUE, bottom := 1, top := 1000,
                       state := STATE_BEFORE_WRITE,
                       resetCount := (b.resetCount + 1) % U32 }, 500) := by
    rw [hb]
    rw [searchStep_notStarted]
    · norm_num [U32]
    · show ¬ u32sub 1000 1 < 5
      decide
    · show (0 : Nat) ≠ STATE_BEFORE_WRITE
      decide
    · show (0 : Nat) ≠ STATE_AFTER_WRITE
      decide
  refine ⟨hinit, ?_, ?_, ?_, ?_⟩ <;>
    simp [boot, hstep]

/-! ## Claim C3 -/

/-- C3 (counterexample): the claim states that on an outcome other than
Success — here an unrelated fault, double-error flag clear — every backup
slot including the magic slot is left unchanged.  A concrete run refutes
this: the handler classifies the fault as unrelated yet the magic slot,
previously holding the sentinel, is 0 afterwards. -/
theorem c3_counterexample :
    (bad_thing_happened ⟨false, 0, false⟩ ⟨MAGIC_VALUE, 1, 1000, 1, 7⟩
        ⟨false, false, false⟩).outcome = .unrelated ∧
    (bad_thing_happened ⟨false, 0, false⟩ ⟨MAGIC_VALUE, 1, 1000, 1, 7⟩
        ⟨false, false, false⟩).backup.magic = 0 ∧
    (⟨MAGIC_VALUE, 1, 1000, 1, 7⟩ : Backup).magic = MAGIC_VALUE ∧
    MAGIC_VALUE ≠ 0 := by
  refine ⟨rfl, rfl, rfl, by decide⟩

/-- C3 (amended): the fault handler clears the first persisted slot (the
magic) unconditionally on entry, before the outcome is even decoded — for
Success, off-target and unrelated outcomes alike — and leaves the remaining
persisted slots (bounds, phase, reset counter) unchanged on every outcome. -/
theorem c3_fault_handler_clears_magic (e : EccR) (b : Backup) (l : Leds) :
    (bad_thing_happened e b l).backup.magic = 0 ∧
    (bad_thing_happened e b l).backup.bottom = b.bottom ∧
    (bad_thing_happened e b l).backup.top = b.top ∧
    (bad_thing_happened e b l).backup.state = b.state ∧
    (bad_thing_happened e b l).backup.resetCount = b.resetCount := by
  by_cases he : e.eccd
  · by_cases ha : APPROXIMATE_ADDRESS_TO_CORRUPT ≤ dead_addr e ∧
        dead_addr e < APPROXIMATE_ADDRESS_TO_CORRUPT + CORRUPT_RANGE
    · simp [bad_thing_happened, he, ha]
    · simp [bad_thing_happened, he, ha]
  · simp [bad_thing_happened, he]

/-! ## Claim C5 -/

/-- C5: on a first boot, detected by the stored magic differing from the
sentinel, the calibration record is initialized to bottom=1, top=1000,
phase NotStarted, and the engine then computes the injected delay
middle=500 without narrowing (the bounds stay 1 and 1000). -/
theorem c5_first_boot (b : Backup) (h : b.magic ≠ MAGIC_VALUE) :
    (firstBootInit b).bottom = 1 ∧ (firstBootInit b).top = 1000 ∧
    (firstBootInit b).state = 0 ∧ (firstBootInit b).magic = MAGIC_VALUE ∧
    (boot b).panicked = false ∧ (boot b).middle = 500 ∧
    (boot b).backup.bottom = 1 ∧ (boot b).backup.top = 1000 := by
  obtain ⟨hinit, h2, h3, h4, h5⟩ := firstBoot_run b h
  exact ⟨by rw [hinit], by rw [hinit], by rw [hinit], by rw [hinit],
         h2, h3, h4, h5⟩

/-- C5 witness: the theorem applied to the all-zero backup record, whose
stored magic 0 differs from the sentinel. -/
theorem c5_first_boot_witness :
    (⟨0, 0, 0, 0, 0⟩ : Backup).magic ≠ MAGIC_VALUE ∧
    ((firstBootInit ⟨0, 0, 0, 0, 0⟩).bottom = 1 ∧
     (firstBootInit ⟨0, 0, 0, 0, 0⟩).top = 1000 ∧
     (firstBootInit ⟨0, 0, 0, 0, 0⟩).state = 0 ∧
     (firstBootInit ⟨0, 0, 0, 0, 0⟩).magic = MAGIC_VALUE ∧
     (boot ⟨0, 0, 0, 0, 0⟩).panicked = false ∧
     (boot ⟨0, 0, 0, 0, 0⟩).middle = 500 ∧
     (boot ⟨0, 0, 0, 0, 0⟩).backup.bottom = 1 ∧
     (boot ⟨0, 0, 0, 0, 0⟩).backup.top = 1000) := by
  exact ⟨by decide, c5_first_boot ⟨0, 0, 0, 0, 0⟩ (by decide)⟩

/-! ## Claim C6 -/

/-- C6: the per-boot narrowing step computes middle=(bottom+top)/2 (32-bit)
from the pre-update bounds; on BeforeWrite it sets top=middle, on AfterWrite
it sets bottom=middle, otherwise it leaves the bounds untouched; it then
recomputes middle from the updated bounds as the delay to inject.  In
particular a boot with persisted bottom=1, top=1000, phase BeforeWrite ends
with top=500 and injected delay 250. -/
theorem c6_narrowing_step (b : Backup) (h : ¬ u32sub b.top b.bottom < 5) :
    (b.state = STATE_BEFORE_WRITE →
      searchStep b = some ({ b with top := ((b.bottom + b.top) % U32) / 2,
                                    state := STATE_BEFORE_WRITE },
        ((b.bottom + ((b.bottom + b.top) % U32) / 2) % U32) / 2)) ∧
    (b.state = STATE_AFTER_WRITE →
      searchStep b = some ({ b with bottom := ((b.bottom + b.top) % U32) / 2,
                                    state := STATE_BEFORE_WRITE },
        ((((b.bottom + b.top) % U32) / 2 + b.top) % U32) / 2)) ∧
    (b.state ≠ STATE_BEFORE_WRITE → b.state ≠ STATE_AFTER_WRITE →
      searchStep b = some ({ b with state := STATE_BEFORE_WRITE },
        ((b.bottom + b.top) % U32) / 2)) ∧
    (b.bottom = 1 → b.top = 1000 → b.state = STATE_BEFORE_WRITE →
      searchStep b
        = some ({ b with top := 500, state := STATE_BEFORE_WRITE }, 250)) := by
  refine ⟨searchStep_beforeWrite b h, searchStep_afterWrite b h,
          searchStep_notStarted b h, fun hb ht h1 => ?_⟩
  rw [searchStep_beforeWrite b h h1, hb, ht]
  norm_num [U32]

/-- C6 witness: the theorem applied to the record bottom=1, top=1000, phase
BeforeWrite — the end-to-end second-boot scenario with result top=500 and
injected delay 250. -/
theorem c6_narrowing_step_witness :
    ¬ u32sub (⟨2576980377, 1, 1000, 1, 41⟩ : Backup).top
        (⟨2576980377, 1, 1000, 1, 41⟩ : Backup).bottom < 5 ∧
    searchStep ⟨2576980377, 1, 1000, 1, 41⟩
      = some (⟨2576980377, 1, 500, 1, 41⟩, 250) := by
  have h : ¬ u32sub (⟨2576980377, 1, 1000, 1, 41⟩ : Backup).top
      (⟨2576980377, 1, 1000, 1, 41⟩ : Backup).bottom < 5 := by decide
  exact ⟨h, (c6_narrowing_step ⟨2576980377, 1, 1000, 1, 41⟩ h).2.2.2 rfl rfl rfl⟩

/-! ## Claim C7 -/

/-- C7 (counterexample): the claim quantifies over every persisted state
with bottom <= top, but the middle computation is 32-bit and wraps: for
bottom = 2^31, top = 2^31 + 10 (a well-formed pair of 32-bit slots with
bottom <= top and width 10, so the assertion does not fire) the pre-update
middle is ((2^31 + 2^31 + 10) mod 2^32) / 2 = 5, and the BeforeWrite
narrowing yields top = 5 < bottom: the invariant bottom <= top is not
preserved and the resulting interval is not contained in the previous one. -/
theorem c7_counterexample :
    (⟨2576980377, 2147483648, 2147483658, 1, 0⟩ : Backup).bottom
      ≤ (⟨2576980377, 2147483648, 2147483658, 1, 0⟩ : Backup).top ∧
    searchStep ⟨2576980377, 2147483648, 2147483658, 1, 0⟩
      = some (⟨2576980377, 2147483648, 5, 1, 0⟩, 1073741826) ∧
    ¬ ((⟨2576980377, 2147483648, 5, 1, 0⟩ : Backup).bottom
        ≤ (⟨2576980377, 2147483648, 5, 1, 0⟩ : Backup).top) := by
  exact ⟨by decide, by decide, by decide⟩

/-- C7 (amended): for every persisted state with bottom <= top whose bounds
do not overflow the 32-bit sum (bottom + top < 2^32), one application of the
narrowing step — when it does not hit the minimum-width assertion —
preserves bottom <= top and never widens the interval: the resulting
[bottom, top] is contained in the previous one, for each of the three
phases. -/
theorem c7_interval_invariant (b b' : Backup) (m : Nat)
    (hle : b.bottom ≤ b.top) (hov : b.bottom + b.top < U32)
    (hstep : searchStep b = some (b', m)) :
    b'.bottom ≤ b'.top ∧ b.bottom ≤ b'.bottom ∧ b'.top ≤ b.top := by
  have hmod : (b.bottom + b.top) % U32 = b.bottom + b.top := Nat.mod_eq_of_lt hov
  by_cases h5 : u32sub b.top b.bottom < 5
  · rw [searchStep_collapse b h5] at hstep
    cases hstep
  · by_cases h1 : b.state = STATE_BEFORE_WRITE
    · rw [searchStep_beforeWrite b h5 h1, Option.some.injEq,
        Prod.mk.injEq] at hstep
      obtain ⟨hb', hm⟩ := hstep
      subst hb'
      refine ⟨?_, ?_, ?_⟩ <;> simp [hmod] <;> omega
    · by_cases h2 : b.state = STATE_AFTER_WRITE
      · rw [searchStep_afterWrite b h5 h2, Option.some.injEq,
          Prod.mk.injEq] at hstep
        obtain ⟨hb', hm⟩ := hstep
        subst hb'
        refine ⟨?_, ?_, ?_⟩ <;> simp [hmod] <;> omega
      · rw [searchStep_notStarted b h5 h1 h2, Option.some.injEq,
          Prod.mk.injEq] at hstep
        obtain ⟨hb', hm⟩ := hstep
        subst hb'
        refine ⟨?_, ?_, ?_⟩ <;> simp [hmod]
        omega

/-- C7 witness: the amended theorem applied to the AfterWrite record
bottom=20, top=120, which narrows to [70, 120], contained in [20, 120]. -/
theorem c7_interval_invariant_witness :
    (⟨2576980377, 20, 120, 2, 0⟩ : Backup).bottom
      ≤ (⟨2576980377, 20, 120, 2, 0⟩ : Backup).top ∧
    (⟨2576980377, 20, 120, 2, 0⟩ : Backup).bottom
        + (⟨2576980377, 20, 120, 2, 0⟩ : Backup).top < U32 ∧
    searchStep ⟨2576980377, 20, 120, 2, 0⟩
      = some (⟨2576980377, 70, 120, 1, 0⟩, 95) ∧
    ((⟨2576980377, 70, 120, 1, 0⟩ : Backup).bottom
        ≤ (⟨2576980377, 70, 120, 1, 0⟩ : Backup).top ∧
     (⟨2576980377, 20, 120, 2, 0⟩ : Backup).bottom
        ≤ (⟨2576980377, 70, 120, 1, 0⟩ : Backup).bottom ∧
     (⟨2576980377, 70, 120, 1, 0⟩ : Backup).top
        ≤ (⟨2576980377, 20, 120, 2, 0⟩ : Backup).top) := by
  have hs : searchStep ⟨2576980377, 20, 120, 2, 0⟩
      = some (⟨2576980377, 70, 120, 1, 0⟩, 95) := by decide
  exact ⟨by decide, by decide, hs,
    c7_interval_invariant ⟨2576980377, 20, 120, 2, 0⟩ ⟨2576980377, 70, 120, 1, 0⟩
      95 (by decide) (by decide) hs⟩

/-! ## Claim C8 -/

/-- C8 (counterexample): for bottom = 2^31, top = 2^31 + 20, phase
BeforeWrite (bottom <= top, width 20), the previous middle is
((2^31 + 2^31 + 20) mod 2^32) / 2 = 10, but the recomputed middle after
narrowing is ((2^31 + 10) mod 2^32) / 2 = 1073741829, which is not
less than or equal to the previous middle: with 32-bit wrap-around the
monotonicity claim fails. -/
theorem c8_counterexample :
    (⟨2576980377, 2147483648, 2147483668, 1, 0⟩ : Backup).bottom
      ≤ (⟨2576980377, 2147483648, 2147483668, 1, 0⟩ : Backup).top ∧
    (⟨2576980377, 2147483648, 2147483668, 1, 0⟩ : Backup).state
      = STATE_BEFORE_WRITE ∧
    searchStep ⟨2576980377, 2147483648, 2147483668, 1, 0⟩
      = some (⟨2576980377, 2147483648, 10, 1, 0⟩, 1073741829) ∧
    (((⟨2576980377, 2147483648, 2147483668, 1, 0⟩ : Backup).bottom
        + (⟨2576980377, 2147483648, 2147483668, 1, 0⟩ : Backup).top) % U32) / 2
      = 10 ∧
    ¬ ((1073741829 : Nat) ≤ 10) := by
  exact ⟨by decide, by decide, by decide, by decide, by decide⟩

/-- C8 (amended): for every pair of bounds with bottom <= top and
top < 2^31 (so that neither middle computation overflows 32 bits), if the
observed phase is BeforeWrite the newly computed middle is at most the
previous boot's middle, and if it is AfterWrite the newly computed middle is
at least the previous boot's middle. -/
theorem c8_middle_monotone (b b' : Backup) (m : Nat)
    (hle : b.bottom ≤ b.top) (htop : b.top < 2147483648)
    (hstep : searchStep b = some (b', m)) :
    (b.state = STATE_BEFORE_WRITE → m ≤ ((b.bottom + b.top) % U32) / 2) ∧
    (b.state = STATE_AFTER_WRITE → ((b.bottom + b.top) % U32) / 2 ≤ m) := by
  have hov : b.bottom + b.top < U32 := by
    unfold U32
    omega
  have hmod : (b.bottom + b.top) % U32 = b.bottom + b.top := Nat.mod_eq_of_lt hov
  by_cases h5 : u32sub b.top b.bottom < 5
  · rw [searchStep_collapse b h5] at hstep
    cases hstep
  · by_cases h1 : b.state = STATE_BEFORE_WRITE
    · rw [searchStep_beforeWrite b h5 h1, Option.some.injEq,
        Prod.mk.injEq] at hstep
      obtain ⟨hb', hm⟩ := hstep
      have hin : (b.bottom + (b.bottom + b.top) / 2) % U32
          = b.bottom + (b.bottom + b.top) / 2 := by
        apply Nat.mod_eq_of_lt
        unfold U32 at hov ⊢
        omega
      constructor
      · intro _
        rw [← hm, hmod, hin]
        omega
      · intro hc
        rw [h1] at hc
        exact absurd hc (by decide)
    · by_cases h2 : b.state = STATE_AFTER_WRITE
      · rw [searchStep_afterWrite b h5 h2, Option.some.injEq,
          Prod.mk.injEq] at hstep
        obtain ⟨hb', hm⟩ := hstep
        have hin : ((b.bottom + b.top) / 2 + b.top) % U32
            = (b.bottom + b.top) / 2 + b.top := by
          apply Nat.mod_eq_of_lt
          unfold U32
          omega
        constructor
        · intro hc
          rw [h2] at hc
          exact absurd hc (by decide)
        · intro _
          rw [← hm, hmod, hin]
          omega
      · exact ⟨fun hc => absurd hc h1, fun hc => absurd hc h2⟩

/-- C8 witness: the amended theorem applied to the AfterWrite record
bottom=4, top=100, whose previous middle 52 is at most the recomputed
middle 76. -/
theorem c8_middle_monotone_witness :
    (⟨2576980377, 4, 100, 2, 9⟩ : Backup).bottom
      ≤ (⟨2576980377, 4, 100, 2, 9⟩ : Backup).top ∧
    (⟨2576980377, 4, 100, 2, 9⟩ : Backup).top < 2147483648 ∧
    searchStep ⟨2576980377, 4, 100, 2, 9⟩
      = some (⟨2576980377, 52, 100, 1, 9⟩, 76) ∧
    (((⟨2576980377, 4, 100, 2, 9⟩ : Backup).state = STATE_BEFORE_WRITE →
        76 ≤ (((⟨2576980377, 4, 100, 2, 9⟩ : Backup).bottom
            + (⟨2576980377, 4, 100, 2, 9⟩ : Backup).top) % U32) / 2) ∧
     ((⟨2576980377, 4, 100, 2, 9⟩ : Backup).state = STATE_AFTER_WRITE →
        (((⟨2576980377, 4, 100, 2, 9⟩ : Backup).bottom
            + (⟨2576980377, 4, 100, 2, 9⟩ : Backup).top) % U32) / 2 ≤ 76)) := by
  have hs : searchStep ⟨2576980377, 4, 100, 2, 9⟩
      = some (⟨2576980377, 52, 100, 1, 9⟩, 76) := by decide
  exact ⟨by decide, by decide, hs,
    c8_middle_monotone ⟨2576980377, 4, 100, 2, 9⟩ ⟨2576980377, 52, 100, 1, 9⟩ 76
      (by decide) (by decide) hs⟩

/-! ## Claim C9 -/

/-- C9: for every persisted record of a resumed search (stored magic equal
to the sentinel) whose interval width `top - bottom` (32-bit subtraction) is
below 5 — for example width 4 — the boot takes the panic path of the
"too similar" assertion, and no flash-mutating operation (unlock, erase or
write) is issued. -/
theorem c9_collapse_panics (b : Backup) (hm : b.magic = MAGIC_VALUE)
    (hsim : u32sub b.top b.bottom < 5) :
    (boot b).panicked = true ∧ (boot b).flashOps = [] := by
  have hinit : firstBootInit b = b := by
    unfold firstBootInit
    simp [hm]
  have hnone : searchStep (bumpResetCount b) = none := by
    apply searchStep_collapse
    exact hsim
  constructor <;> simp [boot, hinit, hnone]

/-- C9 witness: the theorem applied to the record bottom=10, top=14 (width
exactly 4) with the sentinel magic. -/
theorem c9_collapse_panics_witness :
    (⟨2576980377, 10, 14, 0, 0⟩ : Backup).magic = MAGIC_VALUE ∧
    u32sub (⟨2576980377, 10, 14, 0, 0⟩ : Backup).top
      (⟨2576980377, 10, 14, 0, 0⟩ : Backup).bottom < 5 ∧
    ((boot ⟨2576980377, 10, 14, 0, 0⟩).panicked = true ∧
     (boot ⟨2576980377, 10, 14, 0, 0⟩).flashOps = []) := by
  exact ⟨by decide, by decide,
    c9_collapse_panics ⟨2576980377, 10, 14, 0, 0⟩ (by decide) (by decide)⟩

/-! ## Claim C10 -/

/-- C10: the panic handler writes 0 into persisted slot 0 (the magic), so
whatever record a panicking boot leaves behind, the next boot fails the
magic check, reinitializes the record to bottom=1, top=1000, phase
NotStarted, and runs the engine from scratch (no narrowing, injected delay
500): a panic restarts the calibration on the following boot. -/
theorem c10_panic_restarts (b : Backup) :
    (panicHandler b).magic = 0 ∧
    (firstBootInit (panicHandler b)).bottom = 1 ∧
    (firstBootInit (panicHandler b)).top = 1000 ∧
    (firstBootInit (panicHandler b)).state = 0 ∧
    (firstBootInit (panicHandler b)).magic = MAGIC_VALUE ∧
    (boot (panicHandler b)).panicked = false ∧
    (boot (panicHandler b)).middle = 500 ∧
    (boot (panicHandler b)).backup.bottom = 1 ∧
    (boot (panicHandler b)).backup.top = 1000 := by
  have hne : (panicHandler b).magic ≠ MAGIC_VALUE := by
    show (0 : Nat) ≠ MAGIC_VALUE
    decide
  obtain ⟨hinit, h2, h3, h4, h5⟩ := firstBoot_run (panicHandler b) hne
  exact ⟨rfl, by rw [hinit], by rw [hinit], by rw [hinit], by rw [hinit],
         h2, h3, h4, h5⟩

end FlashCorruptor
